import Mathlib

/-!
Verification of the two scripts of ray-project/ray-demos:
`intro-core/load_images_processing.py` (the image-download script) and
`intro-train-cv/load_images_segmentation.py` (the dataset-loading script).

The scripts are embedded shallowly as pure transition functions on an
explicit filesystem state.  Filesystem effects (`os.path.exists`,
`os.mkdir`, the files written by downloads) are modelled on a `FS` record
holding the set of directories and the set of files (as directory/name
pairs).  A run of the download script returns the final filesystem, the
trace of effectful events it performed (each paired with the filesystem
state in which it was performed), and whether the run completed without an
uncaught exception.

The helper module `tasks_helper_utils` (the `URLS` list and the
`download_images` function) is not part of this repository, so the URL
list is a parameter of the run and `download_images` is modelled from the
spec; a fault-injecting variant models downloads that raise exceptions.
-/

/-- A filesystem state: the set of existing directories (by absolute path)
and the set of existing files, a file being a pair of the directory it
lives in and its name within that directory. -/
structure FS where
  dirs : List String
  files : List (String × String)
deriving DecidableEq

/-- The ambient process state a Python run starts from: the current working
directory (read by `os.getcwd()`), the command-line arguments and the
environment variables (neither of which the scripts read). -/
structure ProcessEnv where
  cwd : String
  argv : List String
  env : List (String × String)
deriving DecidableEq

/-- `DATA_DIR = Path(os.getcwd() + "/task_images")` from
`load_images_processing.py`. -/
def DATA_DIR (p : ProcessEnv) : String :=
  p.cwd ++ "/task_images"

/-- `os.path.exists(path)`: true when a directory with this path exists or
a file whose full path (directory ++ "/" ++ name) is this path exists. -/
def os_path_exists (path : String) (fs : FS) : Bool :=
  fs.dirs.contains path || fs.files.any fun f => f.1 ++ "/" ++ f.2 == path

/-- `os.mkdir(path)`: adds the directory to the filesystem. -/
def os_mkdir (path : String) (fs : FS) : FS :=
  { fs with dirs := path :: fs.dirs }

/-- Modelled from the spec: `tasks_helper_utils.download_images(url, dir)`
is defined outside this repository; the spec says the script is to "fetch
each URL" into the cache directory, so the model writes one file, named by
the URL, into the target directory. -/
def download_images (url : String) (dir : String) (fs : FS) : FS :=
  { fs with files := (dir, url) :: fs.files }

/-- Modelled from the spec: a download helper that raises an exception on
the URLs selected by `bad` (the spec leaves network failures to the
caller), and otherwise behaves like `download_images`.  `none` stands for
an uncaught Python exception. -/
def download_images_faulty (bad : String → Bool) (url : String) (dir : String)
    (fs : FS) : Option FS :=
  if bad url then none else some (download_images url dir fs)

/-- The always-succeeding download helper, the nominal behaviour modelled
from the spec. -/
def dl_ok : String → String → FS → Option FS :=
  download_images_faulty fun _ => false

/-- An observable effect of the download script: a directory creation or
one call to `download_images url dir`. -/
inductive Event where
  | mkdir (path : String)
  | download (url : String) (dir : String)
deriving DecidableEq

/-- The outcome of a run: the final filesystem, the trace of events (each
recorded together with the filesystem state in which it was performed),
and `ok = true` iff no exception escaped. -/
structure RunResult where
  fs : FS
  trace : List (Event × FS)
  ok : Bool
deriving DecidableEq

/-- The loop `for url in tqdm.tqdm(t_utils.URLS): t_utils.download_images(url, DATA_DIR)`
from `load_images_processing.py`, over an arbitrary download helper `dl`
(`none` = the call raised).  An exception aborts the remaining iterations
and escapes (`ok = false`); the progress bar is cosmetic and not
modelled. -/
def downloadLoop (dl : String → String → FS → Option FS) (dir : String) :
    List String → FS → RunResult
  | [], fs => ⟨fs, [], true⟩
  | url :: rest, fs =>
    match dl url dir fs with
    | none => ⟨fs, [(Event.download url dir, fs)], false⟩
    | some fs' =>
      let r := downloadLoop dl dir rest fs'
      ⟨r.fs, (Event.download url dir, fs) :: r.trace, r.ok⟩

/-- The module body of `load_images_processing.py`: if `DATA_DIR` does not
exist, create it and download every URL of the list into it; otherwise do
nothing.  `urls` stands for `t_utils.URLS`, which is defined outside this
repository. -/
def load_images_processing (dl : String → String → FS → Option FS)
    (p : ProcessEnv) (urls : List String) (fs : FS) : RunResult :=
  if os_path_exists (DATA_DIR p) fs then ⟨fs, [], true⟩
  else
    let fs1 := os_mkdir (DATA_DIR p) fs
    let r := downloadLoop dl (DATA_DIR p) urls fs1
    ⟨r.fs, (Event.mkdir (DATA_DIR p), fs) :: r.trace, r.ok⟩

/-- The files of `fs` that live in directory `dir`. -/
def filesInDir (dir : String) (fs : FS) : List (String × String) :=
  fs.files.filter fun f => f.1 == dir

/-- `SMALL_DATA = False` from `load_images_segmentation.py`. -/
def SMALL_DATA : Bool := false

/-- `DATASET_NAME = "scene_parse_150"` from `load_images_segmentation.py`. -/
def DATASET_NAME : String := "scene_parse_150"

/-- The arguments of one call to `datasets.load_dataset`. -/
structure LoadDatasetCall where
  name : String
  split : String
deriving DecidableEq

/-- The branch of `load_images_segmentation.py`: the single
`load_dataset` call it makes, as a function of the `SMALL_DATA` flag. -/
def load_images_segmentation (small : Bool) : LoadDatasetCall :=
  if small then ⟨DATASET_NAME, "train[:160]"⟩ else ⟨DATASET_NAME, "train"⟩

/-- The call the script as shipped makes (with `SMALL_DATA = False`). -/
def train_dataset_call : LoadDatasetCall :=
  load_images_segmentation SMALL_DATA

/-- A run of `load_images_segmentation.py` over an arbitrary
`load_dataset` implementation `ld` (`none` = the call raised): the script
is the single call, with no handler around it. -/
def load_images_segmentation_run {α : Type} (ld : LoadDatasetCall → Option α) :
    Option α :=
  ld train_dataset_call

/-- C2: if `DATA_DIR` already exists (whatever its contents), the script
does nothing: no directory is created, `download_images` is never called,
the filesystem is returned unchanged, and no exception is raised. -/
theorem C2_existing_dir_noop (dl : String → String → FS → Option FS)
    (p : ProcessEnv) (urls : List String) (fs : FS)
    (h : os_path_exists (DATA_DIR p) fs = true) :
    load_images_processing dl p urls fs = ⟨fs, [], true⟩ := by
  simp [load_images_processing, h]

theorem C2_existing_dir_noop_witness :
    os_path_exists (DATA_DIR ⟨"/home/user", [], []⟩) ⟨["/home/user/task_images"], []⟩ = true ∧
    load_images_processing dl_ok ⟨"/home/user", [], []⟩ ["a.jpg", "b.jpg"]
      ⟨["/home/user/task_images"], []⟩ = ⟨⟨["/home/user/task_images"], []⟩, [], true⟩ :=
  ⟨by decide,
   C2_existing_dir_noop dl_ok ⟨"/home/user", [], []⟩ ["a.jpg", "b.jpg"]
     ⟨["/home/user/task_images"], []⟩ (by decide)⟩

/-- C4: the dataset-loading script calls `load_dataset` with the dataset
name "scene_parse_150" and the split "train" when `SMALL_DATA` is false,
"train[:160]" when it is true; no other name or split is requested. -/
theorem C4_dataset_call (small : Bool) :
    (load_images_segmentation small).name = "scene_parse_150" ∧
    (load_images_segmentation small).split =
      (if small then "train[:160]" else "train") := by
  cases small <;> simp [load_images_segmentation, DATASET_NAME]

/-- C10: as shipped, `SMALL_DATA` is false, so the script always requests
the full "train" split of "scene_parse_150". -/
theorem C10_shipped_full_split :
    SMALL_DATA = false ∧ train_dataset_call = ⟨"scene_parse_150", "train"⟩ := by
  constructor
  · rfl
  · rfl

/-- C6 counterexample: `DATA_DIR` is not the same across every pair of
runs: two runs with identical CLI arguments and identical environment
variables but different working directories check different paths, because
`DATA_DIR` is built from `os.getcwd()`. -/
theorem C6_counterexample :
    DATA_DIR ⟨"/home/alice", ["--verbose"], [("LANG", "C")]⟩ ≠
    DATA_DIR ⟨"/home/bob", ["--verbose"], [("LANG", "C")]⟩ := by
  decide

/-- C6 amended: `DATA_DIR` is determined by the working directory alone —
it equals `cwd ++ "/task_images"`, so it is independent of CLI flags and
environment variables, and any two runs started from the same working
directory check and write the same path. -/
theorem C6_data_dir_cwd_only (p1 p2 : ProcessEnv) (h : p1.cwd = p2.cwd) :
    DATA_DIR p1 = DATA_DIR p2 ∧ DATA_DIR p1 = p1.cwd ++ "/task_images" := by
  constructor
  · simp [DATA_DIR, h]
  · rfl

theorem C6_data_dir_cwd_only_witness :
    (ProcessEnv.mk "/w" ["--flag"] [("HOME", "/w")]).cwd = (ProcessEnv.mk "/w" [] []).cwd ∧
    (DATA_DIR ⟨"/w", ["--flag"], [("HOME", "/w")]⟩ = DATA_DIR ⟨"/w", [], []⟩ ∧
     DATA_DIR ⟨"/w", ["--flag"], [("HOME", "/w")]⟩ = "/w" ++ "/task_images") :=
  ⟨rfl, C6_data_dir_cwd_only ⟨"/w", ["--flag"], [("HOME", "/w")]⟩ ⟨"/w", [], []⟩ rfl⟩

/-- The fault-injecting download helper reduces to a plain step when the
URL is good. -/
theorem download_images_faulty_good (bad : String → Bool) (u d : String) (fs : FS)
    (h : bad u = false) :
    download_images_faulty bad u d fs = some (download_images u d fs) := by
  simp [download_images_faulty, h]

/-- The nominal helper never raises. -/
theorem dl_ok_eq (u d : String) (fs : FS) :
    dl_ok u d fs = some (download_images u d fs) := rfl

/-- The download loop never creates or removes directories: only
`download_images` runs inside it, and it only writes files. -/
theorem downloadLoop_faulty_dirs (bad : String → Bool) (dir : String)
    (urls : List String) (fs : FS) :
    (downloadLoop (download_images_faulty bad) dir urls fs).fs.dirs = fs.dirs := by
  induction urls generalizing fs with
  | nil => rfl
  | cons u rest ih =>
    cases h : bad u with
    | true => simp [downloadLoop, download_images_faulty, h]
    | false => simp [downloadLoop, download_images_faulty, h, ih, download_images]

/-- The download loop never deletes a file. -/
theorem downloadLoop_faulty_files_mono (bad : String → Bool) (dir : String)
    (urls : List String) (fs : FS) (x : String × String) (hx : x ∈ fs.files) :
    x ∈ (downloadLoop (download_images_faulty bad) dir urls fs).fs.files := by
  induction urls generalizing fs with
  | nil => exact hx
  | cons u rest ih =>
    cases h : bad u with
    | true => simpa [downloadLoop, download_images_faulty, h] using hx
    | false =>
      simp only [downloadLoop, download_images_faulty_good bad u dir fs h]
      exact ih (download_images u dir fs) (by simp [download_images, hx])

/-- When no download raises, the loop performs exactly one download event
per URL, in list order, all into the same directory, and completes. -/
theorem downloadLoop_ok_trace (dl : String → String → FS → Option FS)
    (hdl : ∀ u d s, dl u d s ≠ none) (dir : String) (urls : List String) (fs : FS) :
    (downloadLoop dl dir urls fs).trace.map Prod.fst
      = urls.map (fun u => Event.download u dir) ∧
    (downloadLoop dl dir urls fs).ok = true := by
  induction urls generalizing fs with
  | nil => simp [downloadLoop]
  | cons u rest ih =>
    cases h : dl u dir fs with
    | none => exact absurd h (hdl u dir fs)
    | some fs' => simp [downloadLoop, h, (ih fs').1, (ih fs').2]

/-- Under the nominal helper, every URL of the list ends up as a file in
the target directory. -/
theorem downloadLoop_ok_adds (dir : String) (urls : List String) (fs : FS)
    (u : String) (hu : u ∈ urls) :
    (dir, u) ∈ (downloadLoop dl_ok dir urls fs).fs.files := by
  induction urls generalizing fs with
  | nil => cases hu
  | cons v rest ih =>
    rcases List.mem_cons.mp hu with rfl | hu'
    · have hmem : (dir, u) ∈ (download_images u dir fs).files := by
        simp [download_images]
      simpa [downloadLoop, dl_ok_eq] using
        downloadLoop_faulty_files_mono (fun _ => false) dir rest
          (download_images u dir fs) (dir, u) hmem
    · simpa [downloadLoop, dl_ok_eq] using ih (download_images v dir fs) hu'

/-- If every URL before `u` is good and `u` raises, the loop stops at `u`:
it reports failure, its trace is one download per good URL followed by the
failing call, and the files downloaded before the failure are present in
the final filesystem. -/
theorem downloadLoop_faulty_stops (bad : String → Bool) (dir : String)
    (pre post : List String) (u : String) (fs : FS)
    (hpre : ∀ v ∈ pre, bad v = false) (hu : bad u = true) :
    (downloadLoop (download_images_faulty bad) dir (pre ++ u :: post) fs).ok = false ∧
    (downloadLoop (download_images_faulty bad) dir (pre ++ u :: post) fs).trace.map Prod.fst
      = pre.map (fun v => Event.download v dir) ++ [Event.download u dir] ∧
    ∀ v ∈ pre,
      (dir, v) ∈ (downloadLoop (download_images_faulty bad) dir (pre ++ u :: post) fs).fs.files := by
  induction pre generalizing fs with
  | nil => simp [downloadLoop, download_images_faulty, hu]
  | cons w pre' ih =>
    have hw : bad w = false := hpre w (List.mem_cons_self w pre')
    have hpre' : ∀ v ∈ pre', bad v = false := fun v hv => hpre v (List.mem_cons_of_mem w hv)
    have ih' := ih (download_images w dir fs) hpre'
    refine ⟨?_, ?_, ?_⟩
    · simpa [downloadLoop, download_images_faulty_good bad w dir fs hw] using ih'.1
    · simp [downloadLoop, download_images_faulty_good bad w dir fs hw, ih'.2.1]
    · intro v hv
      rcases List.mem_cons.mp hv with rfl | hv'
      · have hmem : (dir, v) ∈ (download_images v dir fs).files := by
          simp [download_images]
        simpa [downloadLoop, download_images_faulty_good bad v dir fs hw] using
          downloadLoop_faulty_files_mono bad dir (pre' ++ u :: post)
            (download_images v dir fs) (dir, v) hmem
      · simpa [downloadLoop, download_images_faulty_good bad w dir fs hw] using ih'.2.2 v hv'

/-- If the target directory exists when the loop starts, every event of
the loop is a download into that directory performed in a state where the
directory still exists. -/
theorem downloadLoop_faulty_calls_in_dir (bad : String → Bool) (dir : String)
    (urls : List String) (fs : FS) (hdir : dir ∈ fs.dirs) :
    ∀ es ∈ (downloadLoop (download_images_faulty bad) dir urls fs).trace,
      (∃ u, es.1 = Event.download u dir) ∧ dir ∈ es.2.dirs := by
  induction urls generalizing fs with
  | nil => intro es hes; simp [downloadLoop] at hes
  | cons u rest ih =>
    intro es hes
    cases h : bad u with
    | true =>
      simp [downloadLoop, download_images_faulty, h] at hes
      subst hes
      exact ⟨⟨u, rfl⟩, hdir⟩
    | false =>
      simp [downloadLoop, download_images_faulty_good bad u dir fs h] at hes
      rcases hes with rfl | htail
      · exact ⟨⟨u, rfl⟩, hdir⟩
      · exact ih (download_images u dir fs) (by simpa [download_images] using hdir) es htail

/-- The script is a no-op whenever the checked path exists. -/
theorem script_noop_of_exists (dl : String → String → FS → Option FS)
    (p : ProcessEnv) (urls : List String) (fs : FS)
    (h : os_path_exists (DATA_DIR p) fs = true) :
    load_images_processing dl p urls fs = ⟨fs, [], true⟩ := by
  simp [load_images_processing, h]

/-- After any run built from the (possibly faulty) modelled helper, the
checked path exists: either it already did, or the run begins with
`os.mkdir(DATA_DIR)` and the loop never removes directories. -/
theorem script_faulty_exists_after (bad : String → Bool) (p : ProcessEnv)
    (urls : List String) (fs : FS) :
    os_path_exists (DATA_DIR p)
      (load_images_processing (download_images_faulty bad) p urls fs).fs = true := by
  cases h : os_path_exists (DATA_DIR p) fs with
  | true => simp [load_images_processing, h]
  | false =>
    have hdirs : (load_images_processing (download_images_faulty bad) p urls fs).fs.dirs
        = DATA_DIR p :: fs.dirs := by
      simp [load_images_processing, h, downloadLoop_faulty_dirs, os_mkdir]
    simp [os_path_exists, hdirs]

/-- C1: if `DATA_DIR` does not exist before the run, it exists afterward,
and the cache directory is non-empty whenever the URL list is non-empty
(under the nominal modelled download helper). -/
theorem C1_absent_dir_created_and_filled (p : ProcessEnv) (urls : List String)
    (fs : FS) (h : os_path_exists (DATA_DIR p) fs = false) :
    os_path_exists (DATA_DIR p) (load_images_processing dl_ok p urls fs).fs = true ∧
    (urls ≠ [] →
      filesInDir (DATA_DIR p) (load_images_processing dl_ok p urls fs).fs ≠ []) := by
  constructor
  · exact script_faulty_exists_after (fun _ => false) p urls fs
  · intro hurls
    obtain ⟨u, rest, rfl⟩ : ∃ u rest, urls = u :: rest := by
      cases urls with
      | nil => exact absurd rfl hurls
      | cons u rest => exact ⟨u, rest, rfl⟩
    have hmem : (DATA_DIR p, u) ∈ (load_images_processing dl_ok p (u :: rest) fs).fs.files := by
      have := downloadLoop_ok_adds (DATA_DIR p) (u :: rest)
        (os_mkdir (DATA_DIR p) fs) u (List.mem_cons_self u rest)
      simpa [load_images_processing, h] using this
    have hinfilter : (DATA_DIR p, u) ∈
        filesInDir (DATA_DIR p) (load_images_processing dl_ok p (u :: rest) fs).fs := by
      simp [filesInDir, List.mem_filter, hmem]
    exact List.ne_nil_of_mem hinfilter

theorem C1_absent_dir_created_and_filled_witness :
    os_path_exists (DATA_DIR ⟨"/home", [], []⟩) ⟨[], []⟩ = false ∧
    (os_path_exists (DATA_DIR ⟨"/home", [], []⟩)
        (load_images_processing dl_ok ⟨"/home", [], []⟩ ["a.jpg", "b.jpg"] ⟨[], []⟩).fs = true ∧
      (["a.jpg", "b.jpg"] ≠ ([] : List String) →
        filesInDir (DATA_DIR ⟨"/home", [], []⟩)
          (load_images_processing dl_ok ⟨"/home", [], []⟩ ["a.jpg", "b.jpg"] ⟨[], []⟩).fs ≠ [])) :=
  ⟨by decide,
   C1_absent_dir_created_and_filled ⟨"/home", [], []⟩ ["a.jpg", "b.jpg"] ⟨[], []⟩ (by decide)⟩

/-- C3: if `DATA_DIR` is absent beforehand and no download raises, the run
first creates the directory and then performs exactly one download per URL
of the list, sequentially, in list order, always into `DATA_DIR`. -/
theorem C3_absent_dir_event_order (dl : String → String → FS → Option FS)
    (hdl : ∀ u d s, dl u d s ≠ none) (p : ProcessEnv) (urls : List String)
    (fs : FS) (h : os_path_exists (DATA_DIR p) fs = false) :
    (load_images_processing dl p urls fs).trace.map Prod.fst
      = Event.mkdir (DATA_DIR p)
        :: urls.map (fun u => Event.download u (DATA_DIR p)) := by
  have := (downloadLoop_ok_trace dl hdl (DATA_DIR p) urls (os_mkdir (DATA_DIR p) fs)).1
  simp [load_images_processing, h, this]

theorem C3_absent_dir_event_order_witness :
    (∀ u d s, dl_ok u d s ≠ none) ∧
    os_path_exists (DATA_DIR ⟨"/home", [], []⟩) ⟨[], []⟩ = false ∧
    (load_images_processing dl_ok ⟨"/home", [], []⟩ ["a.jpg", "b.jpg"] ⟨[], []⟩).trace.map Prod.fst
      = Event.mkdir (DATA_DIR ⟨"/home", [], []⟩)
        :: (["a.jpg", "b.jpg"].map fun u => Event.download u (DATA_DIR ⟨"/home", [], []⟩)) :=
  ⟨fun u d s hx => Option.noConfusion hx, by decide,
   C3_absent_dir_event_order dl_ok (fun u d s hx => Option.noConfusion hx)
     ⟨"/home", [], []⟩ ["a.jpg", "b.jpg"] ⟨[], []⟩ (by decide)⟩

/-- C5: neither script handles errors.  If a download raises (here: the
first bad URL `u` after the good ones `pre`), the exception escapes
(`ok = false`) and the remaining iterations are not executed: the trace
stops at the failing call.  Likewise, if the `load_dataset` call of the
dataset-loading script raises, the script's result is that exception. -/
theorem C5_exceptions_propagate (bad : String → Bool) (p : ProcessEnv)
    (pre post : List String) (u : String) (fs : FS)
    (hpre : ∀ v ∈ pre, bad v = false) (hu : bad u = true)
    (h : os_path_exists (DATA_DIR p) fs = false) :
    (load_images_processing (download_images_faulty bad) p (pre ++ u :: post) fs).ok = false ∧
    (load_images_processing (download_images_faulty bad) p (pre ++ u :: post) fs).trace.map Prod.fst
      = Event.mkdir (DATA_DIR p)
        :: (pre.map (fun v => Event.download v (DATA_DIR p))
            ++ [Event.download u (DATA_DIR p)]) ∧
    (∀ (α : Type) (ld : LoadDatasetCall → Option α),
        ld train_dataset_call = none → load_images_segmentation_run ld = none) := by
  have hs := downloadLoop_faulty_stops bad (DATA_DIR p) pre post u
    (os_mkdir (DATA_DIR p) fs) hpre hu
  refine ⟨?_, ?_, ?_⟩
  · simp [load_images_processing, h, hs.1]
  · simp [load_images_processing, h, hs.2.1]
  · intro α ld hld
    exact hld

theorem C5_exceptions_propagate_witness :
    (∀ v ∈ ["a.jpg"], (v == "bad.jpg") = false) ∧
    ("bad.jpg" == "bad.jpg") = true ∧
    os_path_exists (DATA_DIR ⟨"/home", [], []⟩) ⟨[], []⟩ = false ∧
    ((load_images_processing (download_images_faulty fun v => v == "bad.jpg")
        ⟨"/home", [], []⟩ (["a.jpg"] ++ "bad.jpg" :: ["c.jpg"]) ⟨[], []⟩).ok = false ∧
      (load_images_processing (download_images_faulty fun v => v == "bad.jpg")
          ⟨"/home", [], []⟩ (["a.jpg"] ++ "bad.jpg" :: ["c.jpg"]) ⟨[], []⟩).trace.map Prod.fst
        = Event.mkdir (DATA_DIR ⟨"/home", [], []⟩)
          :: ((["a.jpg"].map fun v => Event.download v (DATA_DIR ⟨"/home", [], []⟩))
              ++ [Event.download "bad.jpg" (DATA_DIR ⟨"/home", [], []⟩)]) ∧
      ∀ (α : Type) (ld : LoadDatasetCall → Option α),
        ld train_dataset_call = none → load_images_segmentation_run ld = none) :=
  ⟨by intro v hv; rw [List.mem_singleton] at hv; subst hv; decide,
   by decide, by decide,
   C5_exceptions_propagate (fun v => v == "bad.jpg") ⟨"/home", [], []⟩
     ["a.jpg"] ["c.jpg"] "bad.jpg" ⟨[], []⟩
     (by intro v hv; rw [List.mem_singleton] at hv; subst hv; decide)
     (by decide) (by decide)⟩

/-- C7: when `DATA_DIR` is absent, the first event of the run is the
creation of `DATA_DIR`, and every later event is a call to
`download_images` targeting `DATA_DIR`, performed in a filesystem state in
which `DATA_DIR` exists: no write precedes the directory's creation. -/
theorem C7_mkdir_precedes_downloads (bad : String → Bool) (p : ProcessEnv)
    (urls : List String) (fs : FS)
    (h : os_path_exists (DATA_DIR p) fs = false) :
    ∃ rest,
      (load_images_processing (download_images_faulty bad) p urls fs).trace
        = (Event.mkdir (DATA_DIR p), fs) :: rest ∧
      ∀ es ∈ rest,
        (∃ u, es.1 = Event.download u (DATA_DIR p)) ∧ DATA_DIR p ∈ es.2.dirs := by
  refine ⟨(downloadLoop (download_images_faulty bad) (DATA_DIR p) urls
    (os_mkdir (DATA_DIR p) fs)).trace, ?_, ?_⟩
  · simp [load_images_processing, h]
  · exact downloadLoop_faulty_calls_in_dir bad (DATA_DIR p) urls
      (os_mkdir (DATA_DIR p) fs) (by simp [os_mkdir])

theorem C7_mkdir_precedes_downloads_witness :
    os_path_exists (DATA_DIR ⟨"/home", [], []⟩) ⟨[], []⟩ = false ∧
    ∃ rest,
      (load_images_processing (download_images_faulty fun _ => false)
          ⟨"/home", [], []⟩ ["a.jpg"] ⟨[], []⟩).trace
        = (Event.mkdir (DATA_DIR ⟨"/home", [], []⟩), ⟨[], []⟩) :: rest ∧
      ∀ es ∈ rest,
        (∃ u, es.1 = Event.download u (DATA_DIR ⟨"/home", [], []⟩)) ∧
          DATA_DIR ⟨"/home", [], []⟩ ∈ es.2.dirs :=
  ⟨by decide,
   C7_mkdir_precedes_downloads (fun _ => false) ⟨"/home", [], []⟩ ["a.jpg"] ⟨[], []⟩ (by decide)⟩

/-- C8: if a run fails partway (the download of `u` raises after the good
URLs `pre`, the directory having been created), no cleanup happens: the
directory and the files downloaded before the failure remain, and every
subsequent run — with any download helper and any URL list — observes
`DATA_DIR` existing, takes the do-nothing branch, and never retries. -/
theorem C8_partial_failure_never_retried (bad : String → Bool) (p : ProcessEnv)
    (pre post : List String) (u : String) (fs : FS)
    (hpre : ∀ v ∈ pre, bad v = false) (hu : bad u = true)
    (h : os_path_exists (DATA_DIR p) fs = false) :
    (load_images_processing (download_images_faulty bad) p (pre ++ u :: post) fs).ok = false ∧
    DATA_DIR p ∈
      (load_images_processing (download_images_faulty bad) p (pre ++ u :: post) fs).fs.dirs ∧
    (∀ v ∈ pre, (DATA_DIR p, v) ∈
      (load_images_processing (download_images_faulty bad) p (pre ++ u :: post) fs).fs.files) ∧
    ∀ (dl2 : String → String → FS → Option FS) (urls2 : List String),
      load_images_processing dl2 p urls2
          (load_images_processing (download_images_faulty bad) p (pre ++ u :: post) fs).fs
        = ⟨(load_images_processing (download_images_faulty bad) p (pre ++ u :: post) fs).fs,
           [], true⟩ := by
  have hs := downloadLoop_faulty_stops bad (DATA_DIR p) pre post u
    (os_mkdir (DATA_DIR p) fs) hpre hu
  refine ⟨?_, ?_, ?_, ?_⟩
  · simp [load_images_processing, h, hs.1]
  · have hdirs : (load_images_processing (download_images_faulty bad) p
        (pre ++ u :: post) fs).fs.dirs = DATA_DIR p :: fs.dirs := by
      simp [load_images_processing, h, downloadLoop_faulty_dirs, os_mkdir]
    simp [hdirs]
  · intro v hv
    have := hs.2.2 v hv
    simpa [load_images_processing, h] using this
  · intro dl2 urls2
    exact script_noop_of_exists dl2 p urls2 _ (script_faulty_exists_after bad p (pre ++ u :: post) fs)

theorem C8_partial_failure_never_retried_witness :
    (∀ v ∈ ["a.jpg"], (v == "bad.jpg") = false) ∧
    ("bad.jpg" == "bad.jpg") = true ∧
    os_path_exists (DATA_DIR ⟨"/home", [], []⟩) ⟨[], []⟩ = false ∧
    ((load_images_processing (download_images_faulty fun v => v == "bad.jpg")
        ⟨"/home", [], []⟩ (["a.jpg"] ++ "bad.jpg" :: ["c.jpg"]) ⟨[], []⟩).ok = false ∧
      DATA_DIR ⟨"/home", [], []⟩ ∈
        (load_images_processing (download_images_faulty fun v => v == "bad.jpg")
          ⟨"/home", [], []⟩ (["a.jpg"] ++ "bad.jpg" :: ["c.jpg"]) ⟨[], []⟩).fs.dirs ∧
      (∀ v ∈ ["a.jpg"], (DATA_DIR ⟨"/home", [], []⟩, v) ∈
        (load_images_processing (download_images_faulty fun v => v == "bad.jpg")
          ⟨"/home", [], []⟩ (["a.jpg"] ++ "bad.jpg" :: ["c.jpg"]) ⟨[], []⟩).fs.files) ∧
      ∀ (dl2 : String → String → FS → Option FS) (urls2 : List String),
        load_images_processing dl2 ⟨"/home", [], []⟩ urls2
            (load_images_processing (download_images_faulty fun v => v == "bad.jpg")
              ⟨"/home", [], []⟩ (["a.jpg"] ++ "bad.jpg" :: ["c.jpg"]) ⟨[], []⟩).fs
          = ⟨(load_images_processing (download_images_faulty fun v => v == "bad.jpg")
                ⟨"/home", [], []⟩ (["a.jpg"] ++ "bad.jpg" :: ["c.jpg"]) ⟨[], []⟩).fs,
             [], true⟩) :=
  ⟨by intro v hv; rw [List.mem_singleton] at hv; subst hv; decide,
   by decide, by decide,
   C8_partial_failure_never_retried (fun v => v == "bad.jpg") ⟨"/home", [], []⟩
     ["a.jpg"] ["c.jpg"] "bad.jpg" ⟨[], []⟩
     (by intro v hv; rw [List.mem_singleton] at hv; subst hv; decide)
     (by decide) (by decide)⟩

/-- C9: the download script is idempotent on filesystem state: from any
starting state, a second run (over the same modelled helper, faulty or
not) observes `DATA_DIR` existing, does nothing, and returns the
filesystem of the first run unchanged, so two runs end in the same state
as one. -/
theorem C9_second_run_noop (bad : String → Bool) (p : ProcessEnv)
    (urls : List String) (fs : FS) :
    load_images_processing (download_images_faulty bad) p urls
        (load_images_processing (download_images_faulty bad) p urls fs).fs
      = ⟨(load_images_processing (download_images_faulty bad) p urls fs).fs, [], true⟩ :=
  script_noop_of_exists (download_images_faulty bad) p urls _
    (script_faulty_exists_after bad p urls fs)
